import Mathlib

/-!
Verification of the Monte Carlo retirement simulator in
`src/RetirementCalculator.py`.

The simulation core is embedded shallowly:
* Python `int()` applied to a float becomes `pyTrunc` on `ℚ`
  (truncation toward zero); rates read from the data files are exact
  decimals rounded to five places, modelled as rationals.
* Python `round(x, 1)` becomes `roundTo1`, built on `pyRound`
  (round-half-to-even, Python 3 semantics).
* The per-trial loop (lines 137-154) becomes the recursion
  `simulateYears`; the trial bookkeeping (lines 156-162) becomes
  `runTrial`; the case loop (lines 110-166) becomes `montecarlo`,
  with the random draws (start year, duration) passed in as a list.
* The wraparound sampling of the historical series (lines 123-134)
  becomes `lifespan`, `lifespanReturns`, `lifespanInfl`.
* The module-level input check (lines 100-104) becomes `validYears`.
* `bankrupt_prob` (lines 169-186) becomes `bankruptProb` and
  `avgOutcome`; the division by `len(outcome)` is fallible
  (ZeroDivisionError in Python), hence `Option`.
-/

namespace RetirementCalculator

/-- Python `int()` on a real quantity: truncation toward zero.
Models `int(...)` applied to the float expressions in the source. -/
def pyTrunc (q : ℚ) : ℤ :=
  if 0 ≤ q then ⌊q⌋ else ⌈q⌉

/-- Python 3 `round` to an integer: round half to even. -/
def pyRound (q : ℚ) : ℤ :=
  if q - ⌊q⌋ < 1/2 then ⌊q⌋
  else if 1/2 < q - ⌊q⌋ then ⌊q⌋ + 1
  else if Even ⌊q⌋ then ⌊q⌋ else ⌊q⌋ + 1

/-- Python `round(x, 1)`: round to one decimal place, half to even. -/
def roundTo1 (q : ℚ) : ℚ :=
  (pyRound (10 * q) : ℚ) / 10

/-- Line 150: `investments = int(investments * (1 + i))` — grow the
post-withdrawal balance by the year's return and truncate. -/
def growBalance (b : ℤ) (r : ℚ) : ℤ :=
  pyTrunc ((b : ℚ) * (1 + r))

/-- Line 146: `withdraw_inf_adj = int(withdraw_inf_adj * (1 + infl))`
for a later year, line 142: the first year uses `withdrawal` as is. -/
def yearWithdrawal (w0 prevW : ℤ) (index : ℕ) (infl : ℚ) : ℤ :=
  if index = 0 then w0 else pyTrunc ((prevW : ℚ) * (1 + infl))

/-- Lines 137-154: the year loop of one trial. Arguments: initial
withdrawal `w0`, current `index`, current balance `investments`,
previous year's applied withdrawal `prevW`, and the remaining
(return, inflation) pairs. Returns the balance when the loop leaves
and whether `bankrupt` was set (the `break` on line 154). -/
def simulateYears (w0 : ℤ) : ℕ → ℤ → ℤ → List (ℚ × ℚ) → ℤ × Bool
  | _, investments, _, [] => (investments, false)
  | index, investments, prevW, (r, f) :: rest =>
      if growBalance (investments - yearWithdrawal w0 prevW index f) r ≤ 0 then
        (growBalance (investments - yearWithdrawal w0 prevW index f) r, true)
      else
        simulateYears w0 (index + 1)
          (growBalance (investments - yearWithdrawal w0 prevW index f) r)
          (yearWithdrawal w0 prevW index f) rest

/-- Lines 137-162: run one trial from starting value `v0` and nominal
withdrawal `w0` over the given (return, inflation) year pairs; return
the recorded outcome (0 when bankrupt, line 158) and the insolvency
flag. -/
def runTrial (v0 w0 : ℤ) (years : List (ℚ × ℚ)) : ℤ × Bool :=
  if (simulateYears w0 0 v0 0 years).2 then (0, true)
  else ((simulateYears w0 0 v0 0 years).1, false)

/-- Line 124: `lifespan = [i for i in range(start_year, end_year)]`
with `end_year = start_year + duration` (line 123). -/
def lifespan (startYear duration : ℕ) : List ℕ :=
  List.range' startYear duration

/-- Lines 130-133: returns sampled for a trial, wrapping around the
series with `i % len(returns)`. -/
def lifespanReturns (returns : List ℚ) (startYear duration : ℕ) : List ℚ :=
  (lifespan startYear duration).map (fun i => returns.getD (i % returns.length) 0)

/-- Lines 130-134: inflation rates sampled for a trial, wrapping
around the series with `i % len(infl_rate)`. -/
def lifespanInfl (inflRate : List ℚ) (startYear duration : ℕ) : List ℚ :=
  (lifespan startYear duration).map (fun i => inflRate.getD (i % inflRate.length) 0)

/-- One full trial of the case loop: sample the year pairs for the
drawn (start year, duration) and run the solvency recurrence. -/
def trialOutcome (returns inflRate : List ℚ) (v0 w0 : ℤ) (d : ℕ × ℕ) : ℤ × Bool :=
  runTrial v0 w0 ((lifespanReturns returns d.1 d.2).zip (lifespanInfl inflRate d.1 d.2))

/-- Lines 110-166: the case loop of `montecarlo`. The random draws
(start year, duration) for the `num_cases` trials are passed as a
list; the result is the `outcome` list and `bankrupt_count`. -/
def montecarlo (returns inflRate : List ℚ) (v0 w0 : ℤ) :
    List (ℕ × ℕ) → List ℤ × ℕ
  | [] => ([], 0)
  | d :: rest =>
      ((trialOutcome returns inflRate v0 w0 d).1 ::
          (montecarlo returns inflRate v0 w0 rest).1,
        (if (trialOutcome returns inflRate v0 w0 d).2 then 1 else 0) +
          (montecarlo returns inflRate v0 w0 rest).2)

/-- Lines 120-121: `duration = int(random.triangular(...))` — the
continuous triangular draw `x` is truncated to an integer. -/
def durationOf (x : ℚ) : ℤ :=
  pyTrunc x

/-- Lines 100-104: the module-level input check. The program proceeds
to the simulation iff `min_years < most_likely_years < max_years` and
`max_years ≤ 99` (the code exits when `max_years > 99`). -/
def validYears (mn ml mx : ℤ) : Bool :=
  decide (mn < ml) && decide (ml < mx) && decide (mx ≤ 99)

/-- Lines 171-172: `total = len(outcome)`;
`odds = round(100 * bankrupt_count / total, 1)`. Division by a zero
length raises ZeroDivisionError, hence `none`. -/
def bankruptProb (outcome : List ℤ) (bankruptCount : ℕ) : Option ℚ :=
  if outcome.length = 0 then none
  else some (roundTo1 (100 * (bankruptCount : ℚ) / outcome.length))

/-- Line 182: `int(sum(outcome) / total)` — the reported average
outcome; `none` when the outcome list is empty. -/
def avgOutcome (outcome : List ℤ) : Option ℤ :=
  if outcome.length = 0 then none
  else some (pyTrunc ((outcome.sum : ℚ) / outcome.length))

/-! ### Helper lemmas -/

theorem pyTrunc_eq_floor (q : ℚ) (h : 0 ≤ q) : pyTrunc q = ⌊q⌋ :=
  if_pos h

theorem pyTrunc_nonpos (q : ℚ) (h : q ≤ 0) : pyTrunc q ≤ 0 := by
  unfold pyTrunc
  split
  · exact Int.floor_nonpos h
  · exact Int.ceil_le.mpr (by exact_mod_cast h)

theorem le_pyRound (q : ℚ) : q - 1/2 ≤ (pyRound q : ℚ) := by
  unfold pyRound
  have hfl : (⌊q⌋ : ℚ) ≤ q := Int.floor_le q
  have hlt : q < ⌊q⌋ + 1 := Int.lt_floor_add_one q
  split
  · rename_i h
    linarith
  · split
    · push_cast
      linarith
    · split <;> push_cast <;> linarith

theorem pyRound_le (q : ℚ) : (pyRound q : ℚ) ≤ q + 1/2 := by
  unfold pyRound
  have hfl : (⌊q⌋ : ℚ) ≤ q := Int.floor_le q
  have hlt : q < ⌊q⌋ + 1 := Int.lt_floor_add_one q
  split
  · linarith
  · rename_i h
    push_neg at h
    split
    · push_cast
      linarith
    · rename_i h2
      push_neg at h2
      split <;> push_cast <;> linarith

theorem simulateYears_pos_of_solvent (w0 : ℤ) (years : List (ℚ × ℚ)) :
    ∀ (index : ℕ) (inv prevW : ℤ), 0 < inv →
      (simulateYears w0 index inv prevW years).2 = false →
      0 < (simulateYears w0 index inv prevW years).1 := by
  induction years with
  | nil =>
      intro index inv prevW hpos _
      simpa [simulateYears] using hpos
  | cons yr rest ih =>
      intro index inv prevW hpos hsolv
      obtain ⟨r, f⟩ := yr
      simp only [simulateYears] at hsolv ⊢
      split at hsolv
      · simp at hsolv
      · rename_i hb
        push_neg at hb
        rw [if_neg (not_le.mpr hb)]
        exact ih _ _ _ hb hsolv

theorem runTrial_eq_zero_iff (v0 w0 : ℤ) (years : List (ℚ × ℚ)) (h : 0 < v0) :
    (runTrial v0 w0 years).1 = 0 ↔ (runTrial v0 w0 years).2 = true := by
  unfold runTrial
  split
  · simp
  · rename_i hb
    have hb' : (simulateYears w0 0 v0 0 years).2 = false := Bool.of_not_eq_true hb
    have := simulateYears_pos_of_solvent w0 years 0 v0 0 h hb'
    simp
    omega

/-! ### Claims -/

/-- C1: for every trial, the Solvency Simulator applies the recurrence in
sequence order starting from balance = V0: the first year's withdrawal is W0
unadjusted; every later year's withdrawal is the previous year's applied
withdrawal multiplied by (1 + that year's inflation rate) and reduced to an
integer; each year the withdrawal is subtracted from the balance and the
result is multiplied by (1 + that year's return rate) and reduced to an
integer. For V0 = 2000000, W0 = 80000 and a single year with return 0.10 and
inflation 0, the year-1 withdrawal is 80000, the post-withdrawal balance is
1920000, and the post-growth balance is 2112000 with insolvent = false. -/
theorem C1_solvency_recurrence :
    (∀ (v0 w0 prevW : ℤ) (r f : ℚ) (rest : List (ℚ × ℚ)),
      yearWithdrawal w0 prevW 0 f = w0 ∧
      simulateYears w0 0 v0 prevW ((r, f) :: rest) =
        if growBalance (v0 - w0) r ≤ 0 then (growBalance (v0 - w0) r, true)
        else simulateYears w0 1 (growBalance (v0 - w0) r) w0 rest) ∧
    (∀ (w0 prevW : ℤ) (index : ℕ) (f : ℚ),
      yearWithdrawal w0 prevW (index + 1) f = pyTrunc ((prevW : ℚ) * (1 + f))) ∧
    (∀ (b w : ℤ) (r : ℚ),
      growBalance (b - w) r = pyTrunc (((b - w : ℤ) : ℚ) * (1 + r))) ∧
    (yearWithdrawal 80000 0 0 0 = 80000 ∧
      (2000000 - 80000 : ℤ) = 1920000 ∧
      growBalance 1920000 (1/10) = 2112000 ∧
      runTrial 2000000 80000 [((1:ℚ)/10, 0)] = (2112000, false)) := by
  refine ⟨?_, ?_, ?_, ?_, ?_, ?_, ?_⟩
  · intro v0 w0 prevW r f rest
    exact ⟨by simp [yearWithdrawal], by simp [simulateYears, yearWithdrawal]⟩
  · intro w0 prevW index f
    simp [yearWithdrawal]
  · intro b w r
    rfl
  · simp [yearWithdrawal]
  · norm_num
  · norm_num [growBalance, pyTrunc]
  · norm_num [runTrial, simulateYears, yearWithdrawal, growBalance, pyTrunc]

/-- C2: for every trial, if the balance is ≤ 0 after a year's growth step,
processing of the remaining years stops immediately (the result does not
depend on the remaining years), the recorded terminal value is 0 and the
insolvent flag is true; if all years are processed without the balance
dropping ≤ 0, the recorded terminal value is the final balance and insolvent
is false. Consequently (for a positive starting value) a trial's recorded
outcome is 0 iff the trial is insolvent. -/
theorem C2_insolvency_flag (v0 w0 : ℤ) (years : List (ℚ × ℚ)) (h : 0 < v0) :
    (∀ (index : ℕ) (inv prevW : ℤ) (r f : ℚ) (rest : List (ℚ × ℚ)),
      growBalance (inv - yearWithdrawal w0 prevW index f) r ≤ 0 →
      simulateYears w0 index inv prevW ((r, f) :: rest) =
        (growBalance (inv - yearWithdrawal w0 prevW index f) r, true)) ∧
    ((runTrial v0 w0 years).2 = true → (runTrial v0 w0 years).1 = 0) ∧
    ((runTrial v0 w0 years).2 = false →
      (runTrial v0 w0 years).1 = (simulateYears w0 0 v0 0 years).1 ∧
      (simulateYears w0 0 v0 0 years).2 = false) ∧
    ((runTrial v0 w0 years).1 = 0 ↔ (runTrial v0 w0 years).2 = true) := by
  refine ⟨?_, ?_, ?_, runTrial_eq_zero_iff v0 w0 years h⟩
  · intro index inv prevW r f rest hle
    simp only [simulateYears]
    rw [if_pos hle]
  · unfold runTrial
    split <;> simp
  · unfold runTrial
    split <;> simp_all

/-- C2 witness: the concrete trial V0 = 100, W0 = 150 over one year with
zero return and zero inflation goes insolvent, and its recorded outcome is
0 exactly because of that. -/
theorem C2_insolvency_flag_witness :
    (0 : ℤ) < 100 ∧
    ((runTrial 100 150 [((0 : ℚ), 0)]).1 = 0 ↔
      (runTrial 100 150 [((0 : ℚ), 0)]).2 = true) :=
  ⟨by norm_num, (C2_insolvency_flag 100 150 [((0 : ℚ), 0)] (by norm_num)).2.2.2⟩

/-- C3: for every trial with start index s, duration d, return series of
length L and inflation series of length L_infl, the year sequence for
offsets j = 0 .. d-1 uses return value series[(s + j) mod L] and inflation
value infl_series[(s + j) mod L_infl]; in particular for s = L-1 and d = 2
the two return values sampled are series[L-1] and series[0]. -/
theorem C3_wraparound_indexing (series infl : List ℚ) (s d j : ℕ)
    (hj : j < d) (hL : 0 < series.length) :
    ((lifespanReturns series s d).getD j 0 =
      series.getD ((s + j) % series.length) 0) ∧
    ((lifespanInfl infl s d).getD j 0 =
      infl.getD ((s + j) % infl.length) 0) ∧
    (lifespanReturns series (series.length - 1) 2 =
      [series.getD (series.length - 1) 0, series.getD 0 0]) := by
  refine ⟨?_, ?_, ?_⟩
  · unfold lifespanReturns lifespan
    have hlen : j < (List.map (fun i => series.getD (i % series.length) 0)
        (List.range' s d)).length := by simpa using hj
    conv_lhs => rw [List.getD_eq_getElem _ _ hlen]
    rw [List.getElem_map, List.getElem_range'_1]
  · unfold lifespanInfl lifespan
    have hlen : j < (List.map (fun i => infl.getD (i % infl.length) 0)
        (List.range' s d)).length := by simpa using hj
    conv_lhs => rw [List.getD_eq_getElem _ _ hlen]
    rw [List.getElem_map, List.getElem_range'_1]
  · unfold lifespanReturns lifespan
    have h2 : List.range' (series.length - 1) 2 =
        [series.length - 1, series.length - 1 + 1] := rfl
    rw [h2, Nat.sub_add_cancel hL]
    simp [Nat.mod_self, Nat.mod_eq_of_lt (Nat.sub_lt hL one_pos)]

/-- C3 witness: a three-entry return series and a two-entry inflation
series, sampled at start index 2 with duration 3, offset 1. -/
theorem C3_wraparound_indexing_witness :
    (1 < 3 ∧ 0 < ([(7 : ℚ)/100, -1/50, 3/100] : List ℚ).length) ∧
    (((lifespanReturns [(7 : ℚ)/100, -1/50, 3/100] 2 3).getD 1 0 =
      ([(7 : ℚ)/100, -1/50, 3/100] : List ℚ).getD
        ((2 + 1) % ([(7 : ℚ)/100, -1/50, 3/100] : List ℚ).length) 0) ∧
    ((lifespanInfl [(1 : ℚ)/50, 1/25] 2 3).getD 1 0 =
      ([(1 : ℚ)/50, 1/25] : List ℚ).getD
        ((2 + 1) % ([(1 : ℚ)/50, 1/25] : List ℚ).length) 0) ∧
    (lifespanReturns [(7 : ℚ)/100, -1/50, 3/100]
        (([(7 : ℚ)/100, -1/50, 3/100] : List ℚ).length - 1) 2 =
      [([(7 : ℚ)/100, -1/50, 3/100] : List ℚ).getD
          (([(7 : ℚ)/100, -1/50, 3/100] : List ℚ).length - 1) 0,
        ([(7 : ℚ)/100, -1/50, 3/100] : List ℚ).getD 0 0])) :=
  ⟨⟨by norm_num, by norm_num⟩,
    C3_wraparound_indexing [(7 : ℚ)/100, -1/50, 3/100] [(1 : ℚ)/50, 1/25]
      2 3 1 (by norm_num) (by norm_num)⟩

/-- C4: the duration is obtained by truncating (not rounding) the
continuous triangular draw x to an integer; for every possible value of the
draw within [min_years, max_years] (with min_years ≥ 0) the resulting
duration is an integer within [min_years, max_years] inclusive. -/
theorem C4_duration_bounds (mn mx : ℤ) (x : ℚ)
    (h0 : 0 ≤ mn) (h1 : (mn : ℚ) ≤ x) (h2 : x ≤ (mx : ℚ)) :
    durationOf x = ⌊x⌋ ∧ mn ≤ durationOf x ∧ durationOf x ≤ mx := by
  have hx : (0 : ℚ) ≤ x := le_trans (by exact_mod_cast h0) h1
  have hfl : durationOf x = ⌊x⌋ := pyTrunc_eq_floor x hx
  refine ⟨hfl, ?_, ?_⟩
  · rw [hfl]
    exact Int.le_floor.mpr h1
  · rw [hfl]
    exact Int.floor_le_iff.mpr (by linarith)

/-- C4 witness: a draw of 27.5 between the bounds 18 and 40 is truncated
to a duration of 27, inside [18, 40]. -/
theorem C4_duration_bounds_witness :
    (0 ≤ (18 : ℤ) ∧ ((18 : ℤ) : ℚ) ≤ 55/2 ∧ (55/2 : ℚ) ≤ ((40 : ℤ) : ℚ)) ∧
    (durationOf (55/2) = ⌊(55/2 : ℚ)⌋ ∧
      18 ≤ durationOf (55/2) ∧ durationOf (55/2) ≤ 40) :=
  ⟨⟨by norm_num, by norm_num, by norm_num⟩,
    C4_duration_bounds 18 40 (55/2) (by norm_num) (by norm_num) (by norm_num)⟩

/-- C9: a trial whose sampled duration is 0 yields an empty year sequence
(no exception is possible: every sampler and simulator function here is
total), and the simulator treats the trial as solvent with terminal value
equal to the unchanged starting value V0. -/
theorem C9_zero_duration (v0 w0 : ℤ) (s : ℕ) (returns infl : List ℚ) :
    lifespan s 0 = [] ∧
    lifespanReturns returns s 0 = [] ∧
    lifespanInfl infl s 0 = [] ∧
    runTrial v0 w0 [] = (v0, false) ∧
    trialOutcome returns infl v0 w0 (s, 0) = (v0, false) := by
  refine ⟨rfl, rfl, rfl, ?_, ?_⟩ <;>
    simp [runTrial, simulateYears, trialOutcome, lifespanReturns,
      lifespanInfl, lifespan]

/-- C10: although the insolvency check happens only after the growth step,
insolvency caused by the withdrawal alone is never missed: whenever the
post-withdrawal balance is ≤ 0 and the year's return rate is ≥ -1, the
post-growth balance (truncated toward zero) is also ≤ 0, so the trial is
flagged insolvent in that same year. -/
theorem C10_withdrawal_insolvency (w0 inv prevW : ℤ) (index : ℕ) (r f : ℚ)
    (rest : List (ℚ × ℚ))
    (hw : inv - yearWithdrawal w0 prevW index f ≤ 0) (hr : -1 ≤ r) :
    growBalance (inv - yearWithdrawal w0 prevW index f) r ≤ 0 ∧
    simulateYears w0 index inv prevW ((r, f) :: rest) =
      (growBalance (inv - yearWithdrawal w0 prevW index f) r, true) := by
  have h1 : (0 : ℚ) ≤ 1 + r := by linarith
  have h2 : ((inv - yearWithdrawal w0 prevW index f : ℤ) : ℚ) ≤ 0 := by
    exact_mod_cast hw
  have hg : growBalance (inv - yearWithdrawal w0 prevW index f) r ≤ 0 :=
    pyTrunc_nonpos _ (mul_nonpos_iff.mpr (Or.inr ⟨h2, h1⟩))
  refine ⟨hg, ?_⟩
  simp only [simulateYears]
  rw [if_pos hg]

/-- C10 witness: with balance 100 and first-year withdrawal 150 the
post-withdrawal balance is -50 ≤ 0, and with return rate 0 ≥ -1 the
post-growth balance is also ≤ 0. -/
theorem C10_withdrawal_insolvency_witness :
    ((100 : ℤ) - yearWithdrawal 150 0 0 0 ≤ 0) ∧ (-1 ≤ (0 : ℚ)) ∧
    growBalance (100 - yearWithdrawal 150 0 0 0) 0 ≤ 0 :=
  ⟨by norm_num [yearWithdrawal], by norm_num,
    (C10_withdrawal_insolvency 150 100 0 0 0 0 []
      (by norm_num [yearWithdrawal]) (by norm_num)).1⟩

/-- C5: after the case loop completes over the given trial draws, the
outcome sequence has exactly one entry per trial in trial order (its length
equals the number of draws), and the returned bankrupt count equals the
number of insolvent trials, which equals the number of zero entries in the
outcome sequence (for a positive starting value). -/
theorem C5_aggregate_invariants (returns infl : List ℚ) (v0 w0 : ℤ)
    (draws : List (ℕ × ℕ)) (h : 0 < v0) :
    (montecarlo returns infl v0 w0 draws).1.length = draws.length ∧
    (montecarlo returns infl v0 w0 draws).2 =
      draws.countP (fun d => (trialOutcome returns infl v0 w0 d).2) ∧
    (montecarlo returns infl v0 w0 draws).2 =
      (montecarlo returns infl v0 w0 draws).1.count 0 := by
  induction draws with
  | nil => simp [montecarlo]
  | cons d rest ih =>
      obtain ⟨hlen, hcnt, hzero⟩ := ih
      have hiff : (trialOutcome returns infl v0 w0 d).1 = 0 ↔
          (trialOutcome returns infl v0 w0 d).2 = true := by
        unfold trialOutcome
        exact runTrial_eq_zero_iff v0 w0 _ h
      refine ⟨by simpa [montecarlo] using hlen, ?_, ?_⟩
      · by_cases hb : (trialOutcome returns infl v0 w0 d).2 = true
        · simp [montecarlo, List.countP_cons, hb, hcnt]
          omega
        · simp [montecarlo, List.countP_cons, hb, hcnt]
      · by_cases hb : (trialOutcome returns infl v0 w0 d).2 = true
        · have h0 : (trialOutcome returns infl v0 w0 d).1 = 0 := hiff.mpr hb
          simp [montecarlo, List.count_cons, hb, h0, hzero]
          omega
        · have h0 : ¬(trialOutcome returns infl v0 w0 d).1 = 0 := fun hh =>
            hb (hiff.mp hh)
          simp [montecarlo, List.count_cons, hb, hzero,
            Ne.symm h0]

/-- C5 witness: two trials over a flat series (one that goes insolvent in
its single year, one of duration zero) give two outcomes and a bankrupt
count matching the insolvent trials and the zero entries. -/
theorem C5_aggregate_invariants_witness :
    (0 : ℤ) < 100 ∧
    ((montecarlo [0] [0] 100 150 [(0, 1), (0, 0)]).1.length =
      ([(0, 1), (0, 0)] : List (ℕ × ℕ)).length ∧
    (montecarlo [0] [0] 100 150 [(0, 1), (0, 0)]).2 =
      ([(0, 1), (0, 0)] : List (ℕ × ℕ)).countP
        (fun d => (trialOutcome [0] [0] 100 150 d).2) ∧
    (montecarlo [0] [0] 100 150 [(0, 1), (0, 0)]).2 =
      (montecarlo [0] [0] 100 150 [(0, 1), (0, 0)]).1.count 0) :=
  ⟨by norm_num,
    C5_aggregate_invariants [0] [0] 100 150 [(0, 1), (0, 0)] (by norm_num)⟩

/-- C6: for a non-empty outcome sequence with bankrupt count at most the
number of cases, the ruin probability is 100 × bankrupt_count / num_cases
rounded to one decimal place, always lies in [0, 100], and the reported
average outcome is floor(sum(outcome) / num_cases). -/
theorem C6_statistics (outcome : List ℤ) (b : ℕ)
    (h1 : outcome ≠ []) (h2 : b ≤ outcome.length) (h3 : 0 ≤ outcome.sum) :
    bankruptProb outcome b =
      some (roundTo1 (100 * (b : ℚ) / outcome.length)) ∧
    (∀ q, bankruptProb outcome b = some q → 0 ≤ q ∧ q ≤ 100) ∧
    avgOutcome outcome = some ⌊(outcome.sum : ℚ) / outcome.length⌋ := by
  have hn : outcome.length ≠ 0 := by simpa using h1
  have hnpos : 0 < (outcome.length : ℚ) := by
    exact_mod_cast Nat.pos_of_ne_zero hn
  refine ⟨?_, ?_, ?_⟩
  · unfold bankruptProb
    rw [if_neg hn]
  · intro q hq
    unfold bankruptProb at hq
    rw [if_neg hn] at hq
    have hq' : q = roundTo1 (100 * (b : ℚ) / outcome.length) :=
      (Option.some_inj.mp hq).symm
    have ht0 : 0 ≤ 100 * (b : ℚ) / outcome.length := by positivity
    have ht100 : 100 * (b : ℚ) / outcome.length ≤ 100 := by
      rw [div_le_iff₀ hnpos]
      have hb : (b : ℚ) ≤ outcome.length := by exact_mod_cast h2
      linarith
    have hl := le_pyRound (10 * (100 * (b : ℚ) / outcome.length))
    have hr := pyRound_le (10 * (100 * (b : ℚ) / outcome.length))
    have hz0 : (0 : ℤ) ≤ pyRound (10 * (100 * (b : ℚ) / outcome.length)) := by
      have hgt : (-1 : ℚ) <
          (pyRound (10 * (100 * (b : ℚ) / outcome.length)) : ℚ) := by
        linarith
      have : (-1 : ℤ) < pyRound (10 * (100 * (b : ℚ) / outcome.length)) := by
        exact_mod_cast hgt
      omega
    have hz1 : pyRound (10 * (100 * (b : ℚ) / outcome.length)) ≤ 1000 := by
      have hlt : (pyRound (10 * (100 * (b : ℚ) / outcome.length)) : ℚ) <
          1001 := by linarith
      have : pyRound (10 * (100 * (b : ℚ) / outcome.length)) < 1001 := by
        exact_mod_cast hlt
      omega
    rw [hq']
    unfold roundTo1
    constructor
    · have : (0 : ℚ) ≤ (pyRound (10 * (100 * (b : ℚ) / outcome.length)) : ℚ) := by
        exact_mod_cast hz0
      linarith
    · have : (pyRound (10 * (100 * (b : ℚ) / outcome.length)) : ℚ) ≤ 1000 := by
        exact_mod_cast hz1
      linarith
  · unfold avgOutcome
    rw [if_neg hn]
    congr 1
    exact pyTrunc_eq_floor _
      (div_nonneg (by exact_mod_cast h3) (le_of_lt hnpos))

/-- C6 witness: one insolvent trial out of two, outcomes [0, 100]: ruin
probability 50.0%, within [0, 100]; average outcome 50. -/
theorem C6_statistics_witness :
    (([0, 100] : List ℤ) ≠ [] ∧ 1 ≤ ([0, 100] : List ℤ).length ∧
      (0 : ℤ) ≤ ([0, 100] : List ℤ).sum) ∧
    (bankruptProb [0, 100] 1 =
      some (roundTo1 (100 * (1 : ℚ) / ([0, 100] : List ℤ).length)) ∧
    (∀ q, bankruptProb [0, 100] 1 = some q → 0 ≤ q ∧ q ≤ 100) ∧
    avgOutcome [0, 100] =
      some ⌊(([0, 100] : List ℤ).sum : ℚ) / ([0, 100] : List ℤ).length⌋) :=
  ⟨⟨by simp, by simp, by simp⟩,
    C6_statistics [0, 100] 1 (by simp) (by simp) (by simp)⟩

/-- C7: the module-level check accepts exactly the year parameters with
min_years < most_likely_years < max_years and max_years ≤ 99. In
particular it accepts max_years = 99, contradicting both the claim (which
requires rejection whenever max_years exceeds 98) and the program's own
error message "Requires Min < ML < Max with Max < 99". -/
theorem C7_validation_boundary :
    validYears 18 25 99 = true ∧
    validYears 18 25 100 = false ∧
    validYears 25 18 40 = false ∧
    (∀ mn ml mx : ℤ,
      validYears mn ml mx = true ↔ (mn < ml ∧ ml < mx ∧ mx ≤ 99)) := by
  refine ⟨by decide, by decide, by decide, ?_⟩
  intro mn ml mx
  simp [validYears, and_assoc]

/-- C8: there is no guard for num_cases = 0 or an empty historical series:
the year validation looks only at the year parameters; with zero trial
draws the case loop yields an empty outcome list without any error, and
the aggregation stage is then reached with an empty outcome list, where
the division by len(outcome) = 0 fails (ZeroDivisionError, modelled as
none). -/
theorem C8_no_zero_case_guard :
    montecarlo [(1 : ℚ)/10] [(3 : ℚ)/100] 2000000 80000 [] = ([], 0) ∧
    bankruptProb [] 0 = none ∧
    avgOutcome [] = none ∧
    validYears 18 25 40 = true :=
  ⟨rfl, rfl, rfl, by decide⟩

end RetirementCalculator
